import Mathlib

/-!
# Verification of the `ha-occupancy-tracker` occupancy-inference core

This file gives a shallow embedding, in Lean 4, of the parts of the
`recallfx/ha-occupancy-tracker` repository that the verified properties talk
about, together with proofs (or concrete refutations) of those properties.

Embedded source files:
* `custom_components/occupancy_tracker/components/sensor_state.py`
  (`SensorState.update_state`, `SensorState.calculate_is_stuck`);
* `custom_components/occupancy_tracker/components/sensor_adjacency_tracker.py`
  (`SensorAdjacencyTracker`);
* `custom_components/occupancy_tracker/occupancy_tracker.py`
  (the production tracker, namespace `CC` below);
* `custom_components/occupancy_tracker/anomaly_detector.py` (`AnomalyDetector`);
* `custom_components/occupancy_tracker/occupancy_system.py` (`OccupancySystem`);
* `src/occupancy_tracker.py` (the older tracker, namespace `Src` below).

Conventions of the embedding:
* Python `float` timestamps, counters and probabilities are modelled as `ℚ`.
  Every numeric constant in the embedded code (`0.05`, `0.75`, `0.95`, `5`,
  `30`, `86400`, `300`, …) is assigned exactly, and every comparison in the
  code compares such exactly-assigned values, so the rational model agrees
  with the floating-point program on all the runs considered here, with one
  exception: `src/occupancy_tracker.py` computes `math.exp` inside
  `_decay_probability`.  That single expression is modelled by an explicit
  oracle parameter, and every theorem about `Src` is proved for all oracles.
* Python `dict`s keyed by strings are modelled as total functions
  `String → β` (with `Option` where the program distinguishes missing keys).
  The configuration validator of the repository (excluded from the core)
  guarantees that sensors only name configured areas and that adjacency lists
  only name configured areas; where a theorem needs this, it carries the
  corresponding well-formedness hypothesis.
* Mutation is modelled by explicit state passing; statements of the Python
  program that read fields after earlier mutations are translated with the
  same sequencing.
-/

set_option maxHeartbeats 1000000
set_option maxRecDepth 8000
set_option linter.unreachableTactic false
set_option linter.unusedTactic false

/-- Pointwise update of a string-keyed total map (one Python `dict` store). -/
def upd {β : Type} (f : String → β) (k : String) (v : β) : String → β :=
  fun x => if x = k then v else f x

@[simp] theorem upd_same {β : Type} (f : String → β) (k : String) (v : β) :
    upd f k v k = v := by
  simp [upd]

theorem upd_of_ne {β : Type} (f : String → β) (k x : String) (v : β) (h : x ≠ k) :
    upd f k v x = f x := by
  simp [upd, h]

theorem upd_apply {β : Type} (f : String → β) (k x : String) (v : β) :
    upd f k v x = if x = k then v else f x := rfl

/-- The presence-family sensor types, the list
`["motion", "camera_motion", "camera_person"]` appearing verbatim in
`occupancy_tracker.py` and in `sensor_state.py`. -/
def presenceTypes : List String := ["motion", "camera_motion", "camera_person"]

/-! ## `components/sensor_state.py` : `SensorState`

The constructor stores the sensor's config; the only field of it the class
reads is `config.get("type", "")`, modelled as `sensorType`. -/

structure SensorState where
  sensorType : String
  current_state : Bool
  last_changed : ℚ
  history : List (Bool × ℚ)
  is_reliable : Bool
  is_stuck : Bool
deriving DecidableEq

/-- `SensorState.update_state`.  `MAX_HISTORY_LENGTH` lives in
`components/constants.py`, which is not part of the sources here; the bound is
therefore a parameter `H`.  `history.pop(0)` is `List.drop 1`. -/
def SensorState.update_state (H : ℕ) (s : SensorState) (new_state : Bool) (t : ℚ) :
    SensorState × Bool :=
  let history := s.history ++ [(new_state, t)]
  let history := if H < history.length then history.drop 1 else history
  if new_state ≠ s.current_state then
    ({ s with history := history, current_state := new_state, last_changed := t }, true)
  else
    ({ s with history := history }, false)

/-- `SensorState.calculate_is_stuck`. -/
def SensorState.calculate_is_stuck (s : SensorState) (has_recent_adjacent_motion : Bool)
    (t : ℚ) : SensorState × Bool :=
  if s.current_state ∧ 86400 < t - s.last_changed then
    ({ s with is_stuck := true }, true)
  else if s.sensorType ∈ presenceTypes ∧ has_recent_adjacent_motion ∧
      30 < t - s.last_changed then
    ({ s with is_stuck := true }, true)
  else
    ({ s with is_stuck := false }, false)

/-! ## `components/sensor_adjacency_tracker.py` : `SensorAdjacencyTracker`

Python stores `adjacency_map: Dict[str, Set[str]]` and
`motion_times: Dict[str, float]`; sets are modelled as lists (the only
consumer is an existential scan, so order is irrelevant). -/

structure SensorAdjacencyTracker where
  adjacency_map : String → Option (List String)
  motion_times : String → Option ℚ

def SensorAdjacencyTracker.init : SensorAdjacencyTracker :=
  ⟨fun _ => none, fun _ => none⟩

def SensorAdjacencyTracker.set_adjacency (tr : SensorAdjacencyTracker) (sensor : String)
    (adjacent : List String) : SensorAdjacencyTracker :=
  { tr with adjacency_map := upd tr.adjacency_map sensor (some adjacent) }

def SensorAdjacencyTracker.record_motion (tr : SensorAdjacencyTracker) (area : String)
    (t : ℚ) : SensorAdjacencyTracker :=
  { tr with motion_times := upd tr.motion_times area (some t) }

/-- `SensorAdjacencyTracker.check_adjacent_motion`.  The Python guard is
`if motion_time and (timestamp - motion_time) < timeframe`: a stored time of
`0.0` is falsy, hence the `m ≠ 0` conjunct. -/
def SensorAdjacencyTracker.check_adjacent_motion (tr : SensorAdjacencyTracker)
    (sensor : String) (t : ℚ) (timeframe : ℚ) : Bool :=
  ((tr.adjacency_map sensor).getD []).any fun area =>
    match tr.motion_times area with
    | some m => !(decide (m = 0)) && decide (t - m < timeframe)
    | none => false

/-- The reading of `check_adjacent_motion` that the specification states:
true iff some adjacent area has a recorded motion time `m` with
`t - m < timeframe` (no condition on `m` itself). -/
def adjacentMotionClaim (tr : SensorAdjacencyTracker) (sensor : String)
    (t timeframe : ℚ) : Prop :=
  ∃ area ∈ (tr.adjacency_map sensor).getD [],
    ∃ m, tr.motion_times area = some m ∧ t - m < timeframe

/-! ## Theorems for `SensorState` -/

/-- **C7.** `update_state(new_state, t)` always appends `(new_state, t)` to the
history and drops the oldest entry when the bound is exceeded; it returns
`true` exactly when the state changed, in which case `current_state` and
`last_changed` are updated, and otherwise leaves them (in particular
`last_changed`) untouched.  A history within the bound stays within the
bound. -/
theorem claim_C7 (H : ℕ) (s : SensorState) (b : Bool) (t : ℚ) :
    ((s.update_state H b t).2 = true ↔ b ≠ s.current_state) ∧
    (s.update_state H b t).1.history =
      (if H < (s.history ++ [(b, t)]).length then (s.history ++ [(b, t)]).drop 1
       else s.history ++ [(b, t)]) ∧
    (s.update_state H b t).1.current_state =
      (if b ≠ s.current_state then b else s.current_state) ∧
    (s.update_state H b t).1.last_changed =
      (if b ≠ s.current_state then t else s.last_changed) ∧
    (s.history.length ≤ H → (s.update_state H b t).1.history.length ≤ H) := by
  unfold SensorState.update_state
  by_cases h : b = s.current_state <;>
    simp only [h, ne_eq, not_true_eq_false, not_false_eq_true, if_true, if_false,
      ite_true, ite_false] <;>
    refine ⟨by simp_all, by simp_all, by simp_all, by simp_all, ?_⟩ <;>
    intro hle <;> split <;> simp_all <;> omega

/-- Witness for C7 at a concrete sensor state. -/
theorem claim_C7_witness :
    ((SensorState.mk "motion" false 0 [(false, 0), (true, 1)] true false).update_state
        2 true 3).1.history.length ≤ 2 := by
  have h := claim_C7 2 (SensorState.mk "motion" false 0 [(false, 0), (true, 1)] true false)
    true 3
  exact h.2.2.2.2 (by decide)

/-- **C8.** `calculate_is_stuck` returns true (and records `is_stuck`) exactly
when the sensor has been on for more than 24 hours, or it is a presence-family
sensor whose neighbourhood was recently active while the sensor itself has not
changed for more than 30 seconds. -/
theorem claim_C8 (s : SensorState) (adj : Bool) (t : ℚ) :
    ((s.calculate_is_stuck adj t).2 = true ↔
      ((s.current_state = true ∧ 86400 < t - s.last_changed) ∨
        (s.sensorType ∈ presenceTypes ∧ adj = true ∧ 30 < t - s.last_changed))) ∧
    (s.calculate_is_stuck adj t).1.is_stuck = (s.calculate_is_stuck adj t).2 := by
  unfold SensorState.calculate_is_stuck
  split
  · rename_i h
    simp_all
  · split
    · rename_i h h2
      simp_all
    · rename_i h h2
      constructor
      · simp only []
        constructor
        · intro hfalse
          simp at hfalse
        · intro hor
          rcases hor with h1 | h1
          · exact absurd ⟨by simp [h1.1], h1.2⟩ h
          · exact absurd ⟨h1.1, by simp [h1.2.1], h1.2.2⟩ h2
      · rfl

/-! ## Theorems for `SensorAdjacencyTracker` -/

/-- **C9, counterexample.**  With motion recorded in adjacent area `"A"` at
time `0`, the claim's predicate holds at `t = 10`, `timeframe = 30`
(`10 - 0 < 30`), but `check_adjacent_motion` returns `false`: the code's
truthiness test `if motion_time and ...` discards a stored time of `0`. -/
theorem claim_C9_counterexample :
    ((SensorAdjacencyTracker.init.set_adjacency "s1" ["A"]).record_motion "A"
        0).check_adjacent_motion "s1" 10 30 = false ∧
    adjacentMotionClaim
      ((SensorAdjacencyTracker.init.set_adjacency "s1" ["A"]).record_motion "A" 0)
      "s1" 10 30 := by
  constructor
  · decide
  · refine ⟨"A", by decide, 0, by decide, by norm_num⟩

/-- **C9, amended.**  `check_adjacent_motion(sensor, t, timeframe)` is true iff
some area adjacent to `sensor` has a recorded motion time `m` with
`t - m < timeframe` **and `m ≠ 0`** — a recorded time of `0` (Python-falsy,
the repository's "never" sentinel) contributes false, as do unknown sensors
and areas with no recorded motion. -/
theorem claim_C9_amended (tr : SensorAdjacencyTracker) (sensor : String)
    (t timeframe : ℚ) :
    tr.check_adjacent_motion sensor t timeframe = true ↔
      ∃ area ∈ (tr.adjacency_map sensor).getD [],
        ∃ m, tr.motion_times area = some m ∧ m ≠ 0 ∧ t - m < timeframe := by
  unfold SensorAdjacencyTracker.check_adjacent_motion
  rw [List.any_eq_true]
  constructor
  · rintro ⟨area, hmem, hp⟩
    refine ⟨area, hmem, ?_⟩
    rcases hm : tr.motion_times area with _ | m
    · rw [hm] at hp
      simp at hp
    · rw [hm] at hp
      simp only [Bool.and_eq_true, Bool.not_eq_true', decide_eq_false_iff_not,
        decide_eq_true_eq] at hp
      exact ⟨m, rfl, hp.1, hp.2⟩
  · rintro ⟨area, hmem, m, hm, hm0, hlt⟩
    refine ⟨area, hmem, ?_⟩
    rw [hm]
    simp only [Bool.and_eq_true, Bool.not_eq_true', decide_eq_false_iff_not,
      decide_eq_true_eq]
    exact ⟨hm0, hlt⟩

/-! ## Shared configuration shape

`config` is a dictionary with keys `areas`, `adjacency`, `sensors`.  A sensor
entry carries `type` and `area` (a single area name or a list; the code
normalizes a single name to a one-element list, which the embedding bakes into
`areas`).  Missing `adjacency` entries read as `[]` (`adjacency.get(area, [])`),
and `exit_capable` defaults to `False`
(`config["areas"][area].get("exit_capable", False)`). -/

structure SensorInfo where
  type : String
  areas : List String
deriving DecidableEq

structure Config where
  areas : List String
  exit_capable : String → Bool
  indoors : String → Bool
  adjacency : String → List String
  sensors : String → Option SensorInfo

/-! ## `custom_components/occupancy_tracker/occupancy_tracker.py` : `OccupancyTracker`

Namespace `CC`.  `occupant_count` and `occupant_prob` hold Python floats;
every area starts at `0.0` / `0.05` and `last_motion_time` at `None`, which is
also what an absent key would read as, so total maps with those initial values
model the per-area dictionaries exactly (the configuration validator
guarantees events only touch configured areas). -/

namespace CC

structure State where
  occupant_count : String → ℚ
  occupant_prob : String → ℚ
  last_motion_time : String → Option ℚ

def init : State :=
  { occupant_count := fun _ => 0
  , occupant_prob := fun _ => 1/20
  , last_motion_time := fun _ => none }

/-- `self.short_threshold = 5` (also the `OccupancySystem` default). -/
def short_threshold : ℚ := 5

/-- `self.occupant_count[a] = v`. -/
def setCount (s : State) (a : String) (v : ℚ) : State :=
  { s with occupant_count := upd s.occupant_count a v }

/-- `self.occupant_prob[a] = v`. -/
def setProb (s : State) (a : String) (v : ℚ) : State :=
  { s with occupant_prob := upd s.occupant_prob a v }

/-- `self.last_motion_time[a] = v`. -/
def setLast (s : State) (a : String) (v : Option ℚ) : State :=
  { s with last_motion_time := upd s.last_motion_time a v }

/-- The candidate-selection loop of `_try_move_in`: scan the adjacency list,
keeping the occupied area whose last motion is nearest in time (strictly
closer wins, so the first minimum is kept).  `(last_motion_time or 0)` reads
`0` both for `None` and for a stored `0.0`, i.e. `Option.getD 0`. -/
def bestCandidate (s : State) (t : ℚ) : List String → Option (String × ℚ) →
    Option (String × ℚ)
  | [], acc => acc
  | old_area :: rest, acc =>
      if 0 < s.occupant_count old_area then
        let dt := |t - ((s.last_motion_time old_area).getD 0)|
        match acc with
        | none => bestCandidate s t rest (some (old_area, dt))
        | some (b, bdt) =>
            if dt < bdt then bestCandidate s t rest (some (old_area, dt))
            else bestCandidate s t rest (some (b, bdt))
      else bestCandidate s t rest acc

/-- `OccupancyTracker._try_move_in`.  (Python tests candidates with
`if not best_candidate`, which is the `none` case here; an empty-string area
id would also be falsy, an artifact the embedding ignores since area ids are
nonempty.)  The four mutations of the move branch are sequenced exactly as in
the source: decrement, clamp with `max(…, 0)`, reprice the donor, then credit
the new area. -/
def try_move_in (cfg : Config) (s : State) (new_area : String) (t : ℚ) : State :=
  match bestCandidate s t (cfg.adjacency new_area) none with
  | none => setProb (setCount s new_area 1) new_area (19/20)
  | some (best, bdt) =>
      if short_threshold < bdt then
        setProb (setCount s new_area 1) new_area (19/20)
      else
        let s1 := setCount s best (s.occupant_count best - 1)
        let s2 := setCount s1 best (max (s1.occupant_count best) 0)
        let s3 := setProb s2 best (if 0 < s2.occupant_count best then 19/20 else 1/20)
        let s4 := setCount s3 new_area (s3.occupant_count new_area + 1)
        setProb s4 new_area (19/20)

/-- One iteration of `_handle_motion_start`'s area loop. -/
def handle_motion_start_area (cfg : Config) (s : State) (area : String) (t : ℚ) :
    State :=
  let s := setLast s area (some t)
  if s.occupant_count area = 0 then try_move_in cfg s area t
  else setProb s area (19/20)

def handle_motion_start (cfg : Config) (s : State) (areas : List String) (t : ℚ) :
    State :=
  areas.foldl (fun st a => handle_motion_start_area cfg st a t) s

/-- One iteration of `_handle_motion_stop`'s area loop. -/
def handle_motion_stop_area (cfg : Config) (s : State) (area : String) : State :=
  if 1 ≤ s.occupant_count area then
    let s := if 1/2 < s.occupant_prob area then setProb s area (3/4) else s
    if cfg.exit_capable area then setProb (setCount s area 0) area (1/20)
    else s
  else s

def handle_motion_stop (cfg : Config) (s : State) (areas : List String) : State :=
  areas.foldl (fun st a => handle_motion_stop_area cfg st a) s

/-- `OccupancyTracker._handle_magnetic_trigger`.  A single-area magnetic
sensor is treated as a motion start; a two-area sensor moves one occupant from
the occupied side (side `A` first) to the other, or, with both sides empty,
creates one occupant on side `A`.  With any other arity the Python unpacking
`areaA, areaB = areas` raises, which valid configurations exclude; those cases
are modelled as no-ops. -/
def handle_magnetic_trigger (cfg : Config) (s : State) (areas : List String) (t : ℚ) :
    State :=
  match areas with
  | [a] => handle_motion_start cfg s [a] t
  | [areaA, areaB] =>
      let countA := s.occupant_count areaA
      let countB := s.occupant_count areaB
      if 1 ≤ countA then
        let s1 := setCount s areaA (countA - 1)
        let s2 := setCount s1 areaB (countB + 1)
        let s3 := setProb s2 areaA (if 0 < s2.occupant_count areaA then 19/20 else 1/20)
        setProb s3 areaB (19/20)
      else if 1 ≤ countB then
        let s1 := setCount s areaB (countB - 1)
        let s2 := setCount s1 areaA (countA + 1)
        let s3 := setProb s2 areaB (if 0 < s2.occupant_count areaB then 19/20 else 1/20)
        setProb s3 areaA (19/20)
      else if countA = 0 ∧ countB = 0 then
        setProb (setCount s areaA 1) areaA (19/20)
      else s
  | _ => s

/-- `OccupancyTracker.process_event`. -/
def process_event (cfg : Config) (s : State) (sensor : String) (state : Bool)
    (t : ℚ) : State :=
  match cfg.sensors sensor with
  | none => s
  | some info =>
      if info.type ∈ presenceTypes then
        if state then handle_motion_start cfg s info.areas t
        else handle_motion_stop cfg s info.areas
      else if info.type = "magnetic" then
        if state then handle_magnetic_trigger cfg s info.areas t
        else s
      else s

/-- A whole run: events processed in order from a freshly constructed tracker. -/
def run (cfg : Config) (events : List (String × Bool × ℚ)) : State :=
  events.foldl (fun s e => process_event cfg s e.1 e.2.1 e.2.2) init

/-- `get_occupancy`: `self.occupant_count.get(area, 0.0)`. -/
def get_occupancy (s : State) (area : String) : ℚ := s.occupant_count area

/-- `get_occupancy_probability`: `self.occupant_prob.get(area, 0.05)`. -/
def get_occupancy_probability (s : State) (area : String) : ℚ := s.occupant_prob area

end CC

/-! ## `src/occupancy_tracker.py` : the older tracker

Namespace `Src`.  `AreaState` is the Python dataclass; `states` maps every
area id to one (the constructor builds an entry per configured area, and the
embedding's theorems only ever read configured areas).  The single
floating-point expression of the file,
`decay_factor = math.exp(-2.0 * (time_diff - motion_timeout))`, cannot be
modelled exactly over `ℚ`; the product `probability * decay_factor` is
supplied by an oracle argument `(area, time_diff, probability) → ℚ`, and every
theorem below holds for every oracle, hence for the real exponential. -/

namespace Src

structure AreaState where
  occupancy : ℚ
  probability : ℚ
  last_motion : Option ℚ
  last_transition : Option ℚ
deriving DecidableEq

/-- Dataclass defaults: `occupancy = 0`, `probability = 0.0`,
`last_motion = None`, `last_transition = None`. -/
def initArea : AreaState := ⟨0, 0, none, none⟩

structure State where
  states : String → AreaState
  current_time : ℚ

def init : State := ⟨fun _ => initArea, 0⟩

def setArea (s : State) (a : String) (st : AreaState) : State :=
  { s with states := upd s.states a st }

/-- The oracle type replacing `probability * math.exp(-2.0 * (time_diff - 5))`. -/
def DecayOracle : Type := String → ℚ → ℚ → ℚ

/-- `OccupancyTracker._decay_probability` for one (configured) area.
Constants of the class: `motion_timeout = 5.0`, `min_probability = 0.1`,
`high_confidence = 0.95`, `low_confidence = 0.70`. -/
def decay_probability (oracle : DecayOracle) (a : String) (st : AreaState)
    (current_time : ℚ) : AreaState :=
  match st.last_motion with
  | none =>
      if 0 < st.occupancy then { st with probability := 19/20 }
      else { st with probability := 1/10 }
  | some lm =>
      let time_diff := current_time - lm
      if 5 < time_diff then
        if st.occupancy = 0 then
          let p := max (1/10) (oracle a time_diff st.probability)
          let st := { st with probability := p }
          if p ≤ 1/10 then { st with last_motion := none } else st
        else { st with probability := 19/20 }
      else st

/-- One iteration of `updateTimestamp`'s loop over the configured areas. -/
def decayStep (oracle : DecayOracle) (t : ℚ) (s : State) (a : String) : State :=
  setArea s a (decay_probability oracle a (s.states a) t)

/-- `updateTimestamp`: set the clock, then decay every configured area. -/
def updateTimestamp (cfg : Config) (oracle : DecayOracle) (s : State) (t : ℚ) :
    State :=
  cfg.areas.foldl (decayStep oracle t) { s with current_time := t }

/-- `_update_adjacent_probabilities(area, increase)`.  The guard
`if area not in self.areas: return` is the membership test below; a missing
adjacency entry reads as `[]`, making the loop empty exactly as the early
return does. -/
def adjProbStep (increase : Bool) (s : State) (adj : String) : State :=
  if increase then
    if 0 < (s.states adj).occupancy then
      setArea s adj { s.states adj with probability := 19/20 }
    else
      setArea s adj { s.states adj with probability := max (s.states adj).probability (7/10) }
  else
    if (s.states adj).occupancy = 0 then
      setArea s adj { s.states adj with probability := 1/10 }
    else s

def update_adjacent (cfg : Config) (s : State) (area : String) (increase : Bool) :
    State :=
  if area ∈ cfg.areas then (cfg.adjacency area).foldl (adjProbStep increase) s
  else s

/-- The rising-edge `motion` branch of `process_event`, for one area of the
sensor.  The list of recently-active occupied neighbours is computed eagerly
(a Python list comprehension) after `last_motion` is stamped; the splitting
loop then reads every field from the current state, as the Python object
references do.  (`adj_state.last_motion < timestamp` compares a float the
comprehension proved non-`None`; the `getD t` default is dead code.)
One iteration of the occupancy-splitting loop
(`if area_state.occupancy == 0: split occupancy with this active neighbour`);
`motion_rising` below assembles the whole branch. -/
def splitStep (area : String) (t : ℚ) (s : State) (adj : String) : State :=
  if (s.states area).occupancy = 0 then
    let split := (s.states adj).occupancy / 2
    let s := setArea s area
      { s.states area with occupancy := (s.states area).occupancy + split }
    let s := setArea s adj
      { s.states adj with occupancy := (s.states adj).occupancy - split }
    if ((s.states adj).last_motion.getD t) < t then
      let s := setArea s area { s.states area with probability := 19/20 }
      setArea s adj { s.states adj with probability := 7/10 }
    else
      let s := setArea s area { s.states area with probability := 7/10 }
      setArea s adj { s.states adj with probability := 19/20 }
  else s

def motion_rising (cfg : Config) (s : State) (area : String) (t : ℚ) : State :=
  let prev_motion := (s.states area).last_motion
  let s := setArea s area { s.states area with last_motion := some t }
  let adj_active := (cfg.adjacency area).filter fun adj =>
    match (s.states adj).last_motion with
    | some m => decide (t - m < 5) && decide (0 < (s.states adj).occupancy)
    | none => false
  let s :=
    if adj_active.isEmpty then
      if prev_motion = none then
        let st := s.states area
        setArea s area
          { st with probability := if 0 < st.occupancy then 19/20 else 7/10 }
      else s
    else
      adj_active.foldl (splitStep area t) s
  update_adjacent cfg s area true

/-- The rising-edge `magnetic` / `camera_person` branch for one area:
`occupancy = max(1, occupancy)` for indoor areas, then
`probability = high_confidence` and `last_transition = timestamp`. -/
def contact_rising (cfg : Config) (s : State) (area : String) (t : ℚ) : State :=
  let st := s.states area
  let st := if cfg.indoors area then { st with occupancy := max 1 st.occupancy } else st
  setArea s area { st with probability := 19/20, last_transition := some t }

/-- The falling-edge `motion` branch for one area: with a recently-active
neighbour and occupants present, transfer all occupancy to the active
neighbours in equal shares; otherwise just lower the probability.
One iteration of the falling-edge transfer loop:
`states[adj].occupancy += transfer / len(active_adjacents)` and
`probability = high_confidence` (`share` is that constant quotient). -/
def transferStep (share : ℚ) (s : State) (adj : String) : State :=
  let a := s.states adj
  setArea s adj { a with occupancy := a.occupancy + share, probability := 19/20 }

def motion_falling (cfg : Config) (s : State) (area : String) (t : ℚ) : State :=
  let active_adjacents := (cfg.adjacency area).filter fun adj =>
    match (s.states adj).last_motion with
    | some m => decide (t - m < 5)
    | none => false
  let st := s.states area
  let s :=
    if ¬ active_adjacents.isEmpty ∧ 0 < st.occupancy then
      let s := setArea s area
        { st with occupancy := 0, last_motion := none, probability := 1/10 }
      active_adjacents.foldl
        (transferStep (st.occupancy / (active_adjacents.length : ℚ))) s
    else setArea s area { st with probability := 7/10 }
  update_adjacent cfg s area false

/-- `OccupancyTracker.process_event` of `src/occupancy_tracker.py`: unknown
sensors are logged no-ops; otherwise the clock advances (decaying all areas)
and each area of the sensor is processed by type.  `camera_motion` has no
branch in this file.
The per-area dispatch of the `for area in areas` loop. -/
def areaStep (cfg : Config) (info : SensorInfo) (state : Bool) (t : ℚ)
    (s : State) (area : String) : State :=
  if state then
    if info.type = "motion" then motion_rising cfg s area t
    else if info.type = "magnetic" ∨ info.type = "camera_person" then
      contact_rising cfg s area t
    else s
  else
    if info.type = "motion" then motion_falling cfg s area t
    else s

def process_event (cfg : Config) (oracle : DecayOracle) (s : State)
    (sensor : String) (state : Bool) (t : ℚ) : State :=
  match cfg.sensors sensor with
  | none => s
  | some info =>
      info.areas.foldl (areaStep cfg info state t) (updateTimestamp cfg oracle s t)

def run (cfg : Config) (oracle : DecayOracle) (events : List (String × Bool × ℚ)) :
    State :=
  events.foldl (fun s e => process_event cfg oracle s e.1 e.2.1 e.2.2) init

/-- `get_occupancy`: `0` for unknown areas, else the stored count. -/
def get_occupancy (cfg : Config) (s : State) (area : String) : ℚ :=
  if area ∈ cfg.areas then (s.states area).occupancy else 0

/-- `get_occupancy_probability`: `0.0` for unknown areas, else the stored
probability. -/
def get_occupancy_probability (cfg : Config) (s : State) (area : String) : ℚ :=
  if area ∈ cfg.areas then (s.states area).probability else 0

end Src

/-! ## `anomaly_detector.py` : `AnomalyDetector`, and
`occupancy_system.py` : `OccupancySystem`

Anomalies are dictionaries; `long_detection` carries
`{type, sensor, timestamp, duration}` and `impossible_appearance` carries
`{type, area, timestamp, old_count, new_count}`, modelled as one record with
optional fields. -/

structure Anomaly where
  anomalyType : String
  sensor : Option String
  area : Option String
  timestamp : ℚ
  duration : Option ℚ
  old_count : Option ℚ
  new_count : Option ℚ
deriving DecidableEq

/-- An entry of `AnomalyDetector.sensor_states`:
`{"state": bool, "since": timestamp-or-None}`. -/
structure SensorFlag where
  state : Bool
  since : Option ℚ
deriving DecidableEq

structure AnomalyDetector where
  sensor_states : String → Option SensorFlag
  prev_occupant_count : String → ℚ
  anomalies : List Anomaly

/-- `AnomalyDetector.__init__`: no sensor entries, `prev_occupant_count[area] =
tracker.get_occupancy(area)` for every configured area, no anomalies. -/
def AnomalyDetector.init (tracker : CC.State) : AnomalyDetector :=
  { sensor_states := fun _ => none
  , prev_occupant_count := fun a => CC.get_occupancy tracker a
  , anomalies := [] }

/-- `AnomalyDetector.process_event(sensor, state, t)` with threshold
`long_detect_threshold`.  (`duration = timestamp - on_time` divides on an
`on_time` that is always set when the recorded state is on; the `getD 0`
default is dead code for detector states built by this function.) -/
def AnomalyDetector.process_event (cfg : Config) (threshold : ℚ)
    (d : AnomalyDetector) (sensor : String) (state : Bool) (t : ℚ) :
    AnomalyDetector :=
  match cfg.sensors sensor with
  | none => d
  | some _ =>
      let old := (d.sensor_states sensor).getD ⟨false, none⟩
      if state ∧ ¬ old.state then
        { d with sensor_states := upd d.sensor_states sensor (some ⟨true, some t⟩) }
      else if ¬ state ∧ old.state then
        let duration := t - old.since.getD 0
        let d :=
          if threshold < duration then
            { d with anomalies := d.anomalies ++
                [⟨"long_detection", some sensor, none, t, some duration, none, none⟩] }
          else d
        { d with sensor_states := upd d.sensor_states sensor (some ⟨false, none⟩) }
      else d

/-- One iteration of `check_occupancy_changes`' area loop (the Python `for
area, old_count in self.prev_occupant_count.items()`, whose keys are the
configured areas in configuration order). -/
def AnomalyDetector.check_area (cfg : Config) (tracker : CC.State) (t : ℚ)
    (d : AnomalyDetector) (area : String) : AnomalyDetector :=
  let old_count := d.prev_occupant_count area
  let new_count := CC.get_occupancy tracker area
  let d :=
    if old_count = 0 ∧ 0 < new_count then
      if ¬ cfg.exit_capable area then
        let possible := (cfg.adjacency area).any fun adj =>
          decide (0 < CC.get_occupancy tracker adj)
        if ¬ possible then
          { d with anomalies := d.anomalies ++
              [⟨"impossible_appearance", none, some area, t, none, some old_count,
                some new_count⟩] }
        else d
      else d
    else d
  { d with prev_occupant_count := upd d.prev_occupant_count area new_count }

/-- `AnomalyDetector.check_occupancy_changes(t)`. -/
def AnomalyDetector.check_occupancy_changes (cfg : Config) (tracker : CC.State)
    (d : AnomalyDetector) (t : ℚ) : AnomalyDetector :=
  cfg.areas.foldl (fun d area => AnomalyDetector.check_area cfg tracker t d area) d

/-- `OccupancySystem`: the production wrapper pairing the `CC` tracker with
the detector.  Its constructor uses `short_threshold = 5` (the tracker's own
default) and `long_detect_threshold` as given. -/
structure OccupancySystem where
  tracker : CC.State
  detector : AnomalyDetector

def OccupancySystem.init : OccupancySystem :=
  ⟨CC.init, AnomalyDetector.init CC.init⟩

/-- `OccupancySystem.handle_event`: detector sees the raw event, the tracker
processes it, then occupancy changes are checked. -/
def OccupancySystem.handle_event (cfg : Config) (threshold : ℚ)
    (sys : OccupancySystem) (sensor : String) (state : Bool) (t : ℚ) :
    OccupancySystem :=
  let d := AnomalyDetector.process_event cfg threshold sys.detector sensor state t
  let tracker := CC.process_event cfg sys.tracker sensor state t
  let d := AnomalyDetector.check_occupancy_changes cfg tracker d t
  ⟨tracker, d⟩

def OccupancySystem.get_occupancy (sys : OccupancySystem) (area : String) : ℚ :=
  CC.get_occupancy sys.tracker area

def OccupancySystem.get_anomalies (sys : OccupancySystem) : List Anomaly :=
  sys.detector.anomalies

/-! ## Generic fold and setter lemmas -/

theorem foldl_preserve {α σ : Type} (P : σ → Prop) (f : σ → α → σ)
    (h : ∀ s a, P s → P (f s a)) : ∀ (l : List α) (s : σ), P s → P (l.foldl f s) := by
  intro l
  induction l with
  | nil => intro s hs; exact hs
  | cons x xs ih => intro s hs; exact ih (f s x) (h s x hs)

namespace CC

@[simp] theorem setCount_count (s : State) (a : String) (v : ℚ) (x : String) :
    (setCount s a v).occupant_count x = if x = a then v else s.occupant_count x := rfl

@[simp] theorem setCount_prob (s : State) (a : String) (v : ℚ) :
    (setCount s a v).occupant_prob = s.occupant_prob := rfl

@[simp] theorem setCount_last (s : State) (a : String) (v : ℚ) :
    (setCount s a v).last_motion_time = s.last_motion_time := rfl

@[simp] theorem setProb_prob (s : State) (a : String) (v : ℚ) (x : String) :
    (setProb s a v).occupant_prob x = if x = a then v else s.occupant_prob x := rfl

@[simp] theorem setProb_count (s : State) (a : String) (v : ℚ) :
    (setProb s a v).occupant_count = s.occupant_count := rfl

@[simp] theorem setProb_last (s : State) (a : String) (v : ℚ) :
    (setProb s a v).last_motion_time = s.last_motion_time := rfl

@[simp] theorem setLast_count (s : State) (a : String) (v : Option ℚ) :
    (setLast s a v).occupant_count = s.occupant_count := rfl

@[simp] theorem setLast_prob (s : State) (a : String) (v : Option ℚ) :
    (setLast s a v).occupant_prob = s.occupant_prob := rfl

@[simp] theorem setLast_last (s : State) (a : String) (v : Option ℚ) (x : String) :
    (setLast s a v).last_motion_time x =
      if x = a then v else s.last_motion_time x := rfl

/-! ### The reachable-state invariant of the production tracker

Every occupant count is a natural number (hence `≥ 0`), the probability of an
area is `0.05` exactly when the area is empty, and probabilities only take the
three values `0.05`, `0.75`, `0.95`. -/

/-- What one `(count, probability)` cell satisfies. -/
def cellOK (c p : ℚ) : Prop :=
  (∃ n : ℕ, c = n) ∧ (c = 0 ↔ p = 1/20) ∧ (p = 1/20 ∨ p = 3/4 ∨ p = 19/20)

def Inv (s : State) : Prop :=
  ∀ a, cellOK (s.occupant_count a) (s.occupant_prob a)

theorem inv_init : Inv init := by
  intro a
  refine ⟨⟨0, by simp [init]⟩, ?_, Or.inl rfl⟩
  simp [init]

theorem cellOK_nonneg {c p : ℚ} (h : cellOK c p) : 0 ≤ c := by
  obtain ⟨⟨n, hn⟩, -, -⟩ := h
  rw [hn]
  exact_mod_cast Nat.zero_le n

theorem exists_nat_succ {c : ℚ} (h : ∃ n : ℕ, c = n) : ∃ n : ℕ, c + 1 = n := by
  obtain ⟨n, hn⟩ := h
  exact ⟨n + 1, by rw [hn]; push_cast; ring⟩

theorem exists_nat_pred_clamp {c : ℚ} (h : ∃ n : ℕ, c = n) :
    ∃ n : ℕ, max (c - 1) 0 = n := by
  obtain ⟨n, hn⟩ := h
  rcases n with _ | m
  · exact ⟨0, by rw [hn]; norm_num⟩
  · refine ⟨m, ?_⟩
    rw [hn]
    push_cast
    rw [max_eq_left (by push_cast; linarith [Nat.cast_nonneg (α := ℚ) m])]
    ring

/-- `setLast` does not move counts or probabilities. -/
theorem inv_setLast {s : State} (h : Inv s) (a : String) (v : Option ℚ) :
    Inv (setLast s a v) := by
  intro x
  simpa using h x

/-- Setting a cell to a pair that satisfies `cellOK` preserves the invariant. -/
theorem inv_set_cell {s : State} (h : Inv s) (a : String) (c p : ℚ)
    (hc : cellOK c p) : Inv (setProb (setCount s a c) a p) := by
  intro x
  by_cases hx : x = a
  · simpa [hx] using hc
  · simpa [hx] using h x

/-- Characterization of `try_move_in` when no donor is selected (no occupied
neighbour, or the nearest one's motion is too old): the new area is set to one
occupant at probability `0.95`. -/
theorem try_move_in_fresh (cfg : Config) (s : State) (new_area : String) (t : ℚ)
    (hb : ∀ best bdt, bestCandidate s t (cfg.adjacency new_area) none =
        some (best, bdt) → short_threshold < bdt) :
    try_move_in cfg s new_area t = setProb (setCount s new_area 1) new_area (19/20) := by
  unfold try_move_in
  rcases hbc : bestCandidate s t (cfg.adjacency new_area) none with _ | ⟨best, bdt⟩
  · rfl
  · simp only [hb best bdt hbc, if_true]

/-- Characterization of `try_move_in`'s move branch: the donor's count is
decremented and clamped at zero, its probability repriced, and the new area is
credited with one occupant at probability `0.95`. -/
theorem try_move_in_move (cfg : Config) (s : State) (new_area : String) (t : ℚ)
    (best : String) (bdt : ℚ)
    (hb : bestCandidate s t (cfg.adjacency new_area) none = some (best, bdt))
    (hdt : ¬ short_threshold < bdt) :
    (try_move_in cfg s new_area t).occupant_count =
      upd (upd s.occupant_count best (max (s.occupant_count best - 1) 0)) new_area
        ((upd s.occupant_count best (max (s.occupant_count best - 1) 0)) new_area + 1) ∧
    (try_move_in cfg s new_area t).occupant_prob =
      upd (upd s.occupant_prob best
          (if 0 < max (s.occupant_count best - 1) 0 then 19/20 else 1/20)) new_area
        (19/20) ∧
    (try_move_in cfg s new_area t).last_motion_time = s.last_motion_time := by
  unfold try_move_in
  rw [hb]
  simp only [hdt, if_false]
  refine ⟨?_, ?_, rfl⟩ <;> funext x <;> simp [setCount, setProb, upd] <;>
    split_ifs <;> simp_all

theorem cellOK_one : cellOK 1 (19/20) := by
  refine ⟨⟨1, by norm_num⟩, by norm_num, by norm_num⟩

theorem cellOK_succ {c : ℚ} (h : ∃ n : ℕ, c = n) : cellOK (c + 1) (19/20) := by
  obtain ⟨n, hn⟩ := h
  have hnn : (0:ℚ) ≤ c := by rw [hn]; exact_mod_cast Nat.zero_le n
  refine ⟨exists_nat_succ ⟨n, hn⟩, ?_, by norm_num⟩
  constructor
  · intro h0; linarith
  · intro hp; norm_num at hp

theorem cellOK_clamp {c : ℚ} (h : ∃ n : ℕ, c = n) :
    cellOK (max (c - 1) 0) (if 0 < max (c - 1) 0 then (19:ℚ)/20 else 1/20) := by
  refine ⟨exists_nat_pred_clamp h, ?_, ?_⟩
  · by_cases hpos : 0 < max (c - 1) 0
    · simp only [hpos, if_true]
      constructor
      · intro h0; rw [h0] at hpos; exact absurd hpos (lt_irrefl 0)
      · intro hp; norm_num at hp
    · have h0 : max (c - 1) 0 = 0 :=
        le_antisymm (not_lt.mp hpos) (le_max_right _ _)
      simp [h0]
  · by_cases hpos : 0 < max (c - 1) 0 <;> simp [hpos]

theorem inv_try_move_in {cfg : Config} {s : State} (h : Inv s) (new_area : String)
    (t : ℚ) : Inv (try_move_in cfg s new_area t) := by
  by_cases hmove : ∃ best bdt,
      bestCandidate s t (cfg.adjacency new_area) none = some (best, bdt) ∧
      ¬ short_threshold < bdt
  · obtain ⟨best, bdt, hb, hdt⟩ := hmove
    obtain ⟨hcnt, hprob, -⟩ := try_move_in_move cfg s new_area t best bdt hb hdt
    intro x
    by_cases hxn : x = new_area
    · have hp : (try_move_in cfg s new_area t).occupant_prob x = 19/20 := by
        rw [hprob]; simp [upd_apply, hxn]
      by_cases hxb : new_area = best
      · have hc : (try_move_in cfg s new_area t).occupant_count x =
            max (s.occupant_count best - 1) 0 + 1 := by
          rw [hcnt]; simp [upd_apply, hxn, hxb]
        rw [hc, hp]
        exact cellOK_succ (exists_nat_pred_clamp (h best).1)
      · have hc : (try_move_in cfg s new_area t).occupant_count x =
            s.occupant_count new_area + 1 := by
          rw [hcnt]; simp [upd_apply, hxn, hxb]
        rw [hc, hp]
        exact cellOK_succ (h new_area).1
    · by_cases hxb : x = best
      · have hbn : ¬ best = new_area := fun hh => hxn (hxb.trans hh)
        have hc : (try_move_in cfg s new_area t).occupant_count x =
            max (s.occupant_count best - 1) 0 := by
          rw [hcnt]; simp [upd_apply, hxn, hxb, hbn]
        have hp : (try_move_in cfg s new_area t).occupant_prob x =
            (if 0 < max (s.occupant_count best - 1) 0 then (19:ℚ)/20 else 1/20) := by
          rw [hprob]; simp [upd_apply, hxn, hxb, hbn]
        rw [hc, hp]
        exact cellOK_clamp (h best).1
      · have hc : (try_move_in cfg s new_area t).occupant_count x =
            s.occupant_count x := by
          rw [hcnt]; simp [upd_apply, hxn, hxb]
        have hp : (try_move_in cfg s new_area t).occupant_prob x =
            s.occupant_prob x := by
          rw [hprob]; simp [upd_apply, hxn, hxb]
        rw [hc, hp]
        exact h x
  · have hfresh : ∀ best bdt, bestCandidate s t (cfg.adjacency new_area) none =
        some (best, bdt) → short_threshold < bdt := by
      intro best bdt hbc
      by_contra hno
      exact hmove ⟨best, bdt, hbc, hno⟩
    rw [try_move_in_fresh cfg s new_area t hfresh]
    exact inv_set_cell h new_area 1 (19/20) cellOK_one

theorem exists_nat_pred {c : ℚ} (hc : ∃ n : ℕ, c = n) (h1 : 1 ≤ c) :
    ∃ n : ℕ, c - 1 = n := by
  obtain ⟨n, hn⟩ := hc
  rcases n with _ | m
  · rw [hn] at h1; norm_num at h1
  · exact ⟨m, by rw [hn]; push_cast; ring⟩

theorem cellOK_pred {c : ℚ} (hc : ∃ n : ℕ, c = n) (h1 : 1 ≤ c) :
    cellOK (c - 1) (if 0 < c - 1 then (19:ℚ)/20 else 1/20) := by
  obtain ⟨m, hm⟩ := exists_nat_pred hc h1
  refine ⟨⟨m, hm⟩, ?_, ?_⟩
  · by_cases hpos : 0 < c - 1
    · simp only [hpos, if_true]
      constructor
      · intro h0; rw [h0] at hpos; exact absurd hpos (lt_irrefl 0)
      · intro hp; norm_num at hp
    · have h0 : c - 1 = 0 := by
        have : (0:ℚ) ≤ c - 1 := by rw [hm]; exact_mod_cast Nat.zero_le m
        linarith [not_lt.mp hpos]
      simp [h0]
  · by_cases hpos : 0 < c - 1 <;> simp [hpos]

theorem inv_handle_motion_start_area {cfg : Config} {s : State} (h : Inv s)
    (area : String) (t : ℚ) : Inv (handle_motion_start_area cfg s area t) := by
  unfold handle_motion_start_area
  have h2 : Inv (setLast s area (some t)) := inv_setLast h area (some t)
  by_cases h0 : (setLast s area (some t)).occupant_count area = 0
  · simp only [h0, if_true]
    exact inv_try_move_in h2 area t
  · simp only [h0, if_false]
    intro x
    by_cases hx : x = area
    · subst hx
      refine ⟨(h2 x).1, ?_, ?_⟩
      · simp only [setProb_prob, setProb_count, if_pos rfl]
        constructor
        · intro hc; exact absurd hc h0
        · intro hp; norm_num at hp
      · simp
    · have hc : (setProb (setLast s area (some t)) area (19/20)).occupant_count x =
          (setLast s area (some t)).occupant_count x := rfl
      have hp : (setProb (setLast s area (some t)) area (19/20)).occupant_prob x =
          (setLast s area (some t)).occupant_prob x := by
        simp [upd_apply, hx]
      rw [cellOK, hc, hp]
      exact h2 x

theorem inv_handle_motion_start {cfg : Config} {s : State} (h : Inv s)
    (areas : List String) (t : ℚ) : Inv (handle_motion_start cfg s areas t) :=
  foldl_preserve Inv _ (fun s a hs => inv_handle_motion_start_area hs a t) areas s h

theorem inv_handle_motion_stop_area {cfg : Config} {s : State} (h : Inv s)
    (area : String) : Inv (handle_motion_stop_area cfg s area) := by
  unfold handle_motion_stop_area
  by_cases h1 : 1 ≤ s.occupant_count area
  · simp only [h1, if_true]
    have hmid : Inv (if 1/2 < s.occupant_prob area then setProb s area (3/4) else s) := by
      by_cases hp : 1/2 < s.occupant_prob area
      · simp only [hp, if_true]
        intro x
        by_cases hx : x = area
        · subst hx
          refine ⟨(h x).1, ?_, by simp⟩
          simp only [setProb_prob, setProb_count, if_pos rfl]
          constructor
          · intro hc
            -- a zero count would force probability 0.05, contradicting 1/2 < p
            have := (h x).2.1.mp hc
            rw [this] at hp
            norm_num at hp
          · intro hq; norm_num at hq
        · have hc : (setProb s area (3/4)).occupant_count x = s.occupant_count x := rfl
          have hq : (setProb s area (3/4)).occupant_prob x = s.occupant_prob x := by
            simp [upd_apply, hx]
          rw [cellOK, hc, hq]
          exact h x
      · simp only [hp, if_false]; exact h
    by_cases hexit : cfg.exit_capable area
    · simp only [hexit, if_true]
      refine inv_set_cell hmid area 0 (1/20) ⟨⟨0, by norm_num⟩, by norm_num, by norm_num⟩
    · simp only [hexit, if_false]; exact hmid
  · simp only [h1, if_false]; exact h

theorem inv_handle_motion_stop {cfg : Config} {s : State} (h : Inv s)
    (areas : List String) : Inv (handle_motion_stop cfg s areas) :=
  foldl_preserve Inv _ (fun s a hs => inv_handle_motion_stop_area hs a) areas s h

/-- Characterization of the first transfer branch of
`_handle_magnetic_trigger` (`countA >= 1`). -/
theorem magnetic_first (cfg : Config) (s : State) (areaA areaB : String) (t : ℚ)
    (h1 : 1 ≤ s.occupant_count areaA) :
    (handle_magnetic_trigger cfg s [areaA, areaB] t).occupant_count =
      upd (upd s.occupant_count areaA (s.occupant_count areaA - 1)) areaB
        (s.occupant_count areaB + 1) ∧
    (handle_magnetic_trigger cfg s [areaA, areaB] t).occupant_prob =
      upd (upd s.occupant_prob areaA
          (if 0 < upd (upd s.occupant_count areaA (s.occupant_count areaA - 1)) areaB
              (s.occupant_count areaB + 1) areaA then (19:ℚ)/20 else 1/20)) areaB
        (19/20) ∧
    (handle_magnetic_trigger cfg s [areaA, areaB] t).last_motion_time =
      s.last_motion_time := by
  unfold handle_magnetic_trigger
  simp only [h1, if_true]
  exact ⟨rfl, rfl, rfl⟩

/-- Characterization of the second transfer branch (`countA < 1 ≤ countB`). -/
theorem magnetic_second (cfg : Config) (s : State) (areaA areaB : String) (t : ℚ)
    (h1 : ¬ 1 ≤ s.occupant_count areaA) (h2 : 1 ≤ s.occupant_count areaB) :
    (handle_magnetic_trigger cfg s [areaA, areaB] t).occupant_count =
      upd (upd s.occupant_count areaB (s.occupant_count areaB - 1)) areaA
        (s.occupant_count areaA + 1) ∧
    (handle_magnetic_trigger cfg s [areaA, areaB] t).occupant_prob =
      upd (upd s.occupant_prob areaB
          (if 0 < upd (upd s.occupant_count areaB (s.occupant_count areaB - 1)) areaA
              (s.occupant_count areaA + 1) areaB then (19:ℚ)/20 else 1/20)) areaA
        (19/20) ∧
    (handle_magnetic_trigger cfg s [areaA, areaB] t).last_motion_time =
      s.last_motion_time := by
  unfold handle_magnetic_trigger
  simp only [h1, h2, if_true, if_false]
  exact ⟨rfl, rfl, rfl⟩

theorem inv_handle_magnetic_trigger {cfg : Config} {s : State} (h : Inv s)
    (areas : List String) (t : ℚ) : Inv (handle_magnetic_trigger cfg s areas t) := by
  match areas with
  | [] => exact h
  | [a] => exact inv_handle_motion_start h [a] t
  | a :: b :: c :: rest =>
      exact h
  | [areaA, areaB] =>
      by_cases h1 : 1 ≤ s.occupant_count areaA
      · obtain ⟨hcnt, hprob, -⟩ := magnetic_first cfg s areaA areaB t h1
        intro x
        by_cases hxB : x = areaB
        · have hp : (handle_magnetic_trigger cfg s [areaA, areaB] t).occupant_prob x =
              19/20 := by
            rw [hprob]; simp [upd_apply, hxB]
          by_cases hAB : areaB = areaA
          · have hc : (handle_magnetic_trigger cfg s [areaA, areaB] t).occupant_count x =
                s.occupant_count areaB + 1 := by
              rw [hcnt]; simp [upd_apply, hxB]
            rw [hc, hp]
            exact cellOK_succ (h areaB).1
          · have hc : (handle_magnetic_trigger cfg s [areaA, areaB] t).occupant_count x =
                s.occupant_count areaB + 1 := by
              rw [hcnt]; simp [upd_apply, hxB]
            rw [hc, hp]
            exact cellOK_succ (h areaB).1
        · by_cases hxA : x = areaA
          · have hBA : ¬ areaA = areaB := fun hh => hxB (hxA.trans hh)
            have hc : (handle_magnetic_trigger cfg s [areaA, areaB] t).occupant_count x =
                s.occupant_count areaA - 1 := by
              rw [hcnt]; simp [upd_apply, hxA, hxB, hBA]
            have hp : (handle_magnetic_trigger cfg s [areaA, areaB] t).occupant_prob x =
                (if 0 < s.occupant_count areaA - 1 then (19:ℚ)/20 else 1/20) := by
              rw [hprob]; simp [upd_apply, hxA, hxB, hBA]
            rw [hc, hp]
            exact cellOK_pred (h areaA).1 h1
          · have hc : (handle_magnetic_trigger cfg s [areaA, areaB] t).occupant_count x =
                s.occupant_count x := by
              rw [hcnt]; simp [upd_apply, hxA, hxB]
            have hp : (handle_magnetic_trigger cfg s [areaA, areaB] t).occupant_prob x =
                s.occupant_prob x := by
              rw [hprob]; simp [upd_apply, hxA, hxB]
            rw [cellOK, hc, hp]
            exact h x
      · by_cases h2 : 1 ≤ s.occupant_count areaB
        · obtain ⟨hcnt, hprob, -⟩ := magnetic_second cfg s areaA areaB t h1 h2
          intro x
          by_cases hxA : x = areaA
          · have hp : (handle_magnetic_trigger cfg s [areaA, areaB] t).occupant_prob x =
                19/20 := by
              rw [hprob]; simp [upd_apply, hxA]
            have hc : (handle_magnetic_trigger cfg s [areaA, areaB] t).occupant_count x =
                s.occupant_count areaA + 1 := by
              rw [hcnt]; simp [upd_apply, hxA]
            rw [hc, hp]
            exact cellOK_succ (h areaA).1
          · by_cases hxB : x = areaB
            · have hBA : ¬ areaB = areaA := fun hh => hxA (hxB.trans hh)
              have hc : (handle_magnetic_trigger cfg s [areaA, areaB] t).occupant_count x =
                  s.occupant_count areaB - 1 := by
                rw [hcnt]; simp [upd_apply, hxA, hxB, hBA]
              have hp : (handle_magnetic_trigger cfg s [areaA, areaB] t).occupant_prob x =
                  (if 0 < s.occupant_count areaB - 1 then (19:ℚ)/20 else 1/20) := by
                rw [hprob]; simp [upd_apply, hxA, hxB, hBA]
              rw [hc, hp]
              exact cellOK_pred (h areaB).1 h2
            · have hc : (handle_magnetic_trigger cfg s [areaA, areaB] t).occupant_count x =
                  s.occupant_count x := by
                rw [hcnt]; simp [upd_apply, hxA, hxB]
              have hp : (handle_magnetic_trigger cfg s [areaA, areaB] t).occupant_prob x =
                  s.occupant_prob x := by
                rw [hprob]; simp [upd_apply, hxA, hxB]
              rw [cellOK, hc, hp]
              exact h x
        · by_cases h3 : s.occupant_count areaA = 0 ∧ s.occupant_count areaB = 0
          · unfold handle_magnetic_trigger
            simp only [h1, h2, h3, if_true, if_false, and_self]
            exact inv_set_cell h areaA 1 (19/20) cellOK_one
          · unfold handle_magnetic_trigger
            simp only [h1, h2, h3, if_false]
            exact h

theorem inv_process_event {cfg : Config} {s : State} (h : Inv s) (sensor : String)
    (state : Bool) (t : ℚ) : Inv (process_event cfg s sensor state t) := by
  unfold process_event
  rcases cfg.sensors sensor with _ | info
  · exact h
  · by_cases hpres : info.type ∈ presenceTypes
    · simp only [hpres, if_true]
      by_cases hst : state
      · simp only [hst, if_true]; exact inv_handle_motion_start h info.areas t
      · simp only [hst, if_false]; exact inv_handle_motion_stop h info.areas
    · simp only [hpres, if_false]
      by_cases hmag : info.type = "magnetic"
      · simp only [hmag, if_true]
        by_cases hst : state
        · simp only [hst, if_true]; exact inv_handle_magnetic_trigger h info.areas t
        · simp only [hst, if_false]; exact h
      · simp only [hmag, if_false]; exact h

/-- Every state reachable by a run of `process_event` calls from construction
satisfies the invariant. -/
theorem inv_run (cfg : Config) (events : List (String × Bool × ℚ)) :
    Inv (run cfg events) :=
  foldl_preserve Inv _ (fun s e hs => inv_process_event hs e.1 e.2.1 e.2.2)
    events init inv_init

end CC

/-! ## Nonnegativity of occupancy in the older tracker -/

namespace Src

@[simp] theorem setArea_states (s : State) (a : String) (st : AreaState) (x : String) :
    (setArea s a st).states x = if x = a then st else s.states x := rfl

/-- Occupancy is never negative: the invariant for `src/occupancy_tracker.py`
(the counts there are rationals, not integers — see the C1 counterexample). -/
def NInv (s : State) : Prop := ∀ a, 0 ≤ (s.states a).occupancy

theorem ninv_init : NInv init := by
  intro a
  norm_num [init, initArea]

theorem decay_occupancy (oracle : DecayOracle) (a : String) (st : AreaState) (t : ℚ) :
    (decay_probability oracle a st t).occupancy = st.occupancy := by
  unfold decay_probability
  cases h : st.last_motion <;> simp [h] <;> split_ifs <;> rfl

theorem ninv_decayStep {s : State} (h : NInv s) (oracle : DecayOracle) (t : ℚ)
    (a : String) : NInv (decayStep oracle t s a) := by
  intro x
  unfold decayStep
  by_cases hx : x = a
  · simp [hx, decay_occupancy]
    exact h a
  · simp [hx]
    exact h x

theorem ninv_updateTimestamp {s : State} (h : NInv s) (cfg : Config)
    (oracle : DecayOracle) (t : ℚ) : NInv (updateTimestamp cfg oracle s t) := by
  unfold updateTimestamp
  refine foldl_preserve NInv _ (fun s a hs => ninv_decayStep hs oracle t a) _ _ ?_
  intro x
  exact h x

theorem ninv_adjProbStep {s : State} (h : NInv s) (inc : Bool) (adj : String) :
    NInv (adjProbStep inc s adj) := by
  intro x
  unfold adjProbStep
  have hset : ∀ rec : AreaState, rec.occupancy = (s.states adj).occupancy →
      0 ≤ ((setArea s adj rec).states x).occupancy := by
    intro rec hrec
    rw [setArea_states]
    by_cases hx : x = adj
    · rw [if_pos hx, hrec]; exact h adj
    · rw [if_neg hx]; exact h x
  split_ifs
  · exact hset _ rfl
  · exact hset _ rfl
  · exact hset _ rfl
  · exact h x

theorem ninv_update_adjacent {s : State} (h : NInv s) (cfg : Config) (area : String)
    (inc : Bool) : NInv (update_adjacent cfg s area inc) := by
  unfold update_adjacent
  split
  · exact foldl_preserve NInv _ (fun s a hs => ninv_adjProbStep hs inc a) _ _ h
  · exact h

theorem ninv_splitStep {s : State} (h : NInv s) (area : String) (t : ℚ)
    (adj : String) : NInv (splitStep area t s adj) := by
  intro x
  unfold splitStep
  by_cases h0 : (s.states area).occupancy = 0
  · rw [if_pos h0]
    dsimp only
    split <;> simp only [setArea_states] <;> split_ifs <;> (try dsimp only) <;>
      linarith [h adj, h area, h x]
  · rw [if_neg h0]
    exact h x

theorem ninv_contact_rising {s : State} (h : NInv s) (cfg : Config) (area : String)
    (t : ℚ) : NInv (contact_rising cfg s area t) := by
  unfold contact_rising
  intro x
  by_cases hx : x = area
  · split_ifs <;> simp [hx] <;> first | positivity | exact h area
  · split_ifs <;> simp [hx] <;> exact h x

theorem ninv_transferStep {s : State} (h : NInv s) (share : ℚ) (hsh : 0 ≤ share)
    (adj : String) : NInv (transferStep share s adj) := by
  unfold transferStep
  intro x
  by_cases hx : x = adj
  · simp [hx]
    linarith [h adj]
  · simp [hx]
    exact h x

theorem ninv_motion_falling {s : State} (h : NInv s) (cfg : Config) (area : String)
    (t : ℚ) : NInv (motion_falling cfg s area t) := by
  unfold motion_falling
  apply ninv_update_adjacent _ cfg area false
  split
  · rename_i hcond
    refine foldl_preserve NInv _ (fun s2 a hs => ninv_transferStep hs _ ?_ a) _ _ ?_
    · apply div_nonneg (h area)
      positivity
    · intro x
      by_cases hx : x = area
      · simp [hx]
      · simp [hx]
        exact h x
  · intro x
    by_cases hx : x = area
    · simp [hx]
      exact h area
    · simp [hx]
      exact h x

theorem ninv_motion_rising {s : State} (h : NInv s) (cfg : Config) (area : String)
    (t : ℚ) : NInv (motion_rising cfg s area t) := by
  unfold motion_rising
  apply ninv_update_adjacent _ cfg area true
  have h1 : NInv (setArea s area { s.states area with last_motion := some t }) := by
    intro x
    by_cases hx : x = area
    · simp [hx]; exact h area
    · simp [hx]; exact h x
  split
  · split
    · intro x
      by_cases hx : x = area
      · simp [hx]
        exact h area
      · simp [hx]
        exact h x
    · exact h1
  · exact foldl_preserve NInv _ (fun s2 a hs => ninv_splitStep hs area t a) _ _ h1

theorem ninv_areaStep {s : State} (h : NInv s) (cfg : Config) (info : SensorInfo)
    (state : Bool) (t : ℚ) (area : String) :
    NInv (areaStep cfg info state t s area) := by
  unfold areaStep
  split_ifs <;>
    first
      | exact ninv_motion_rising h cfg area t
      | exact ninv_contact_rising h cfg area t
      | exact ninv_motion_falling h cfg area t
      | exact h

theorem ninv_process_event {s : State} (h : NInv s) (cfg : Config)
    (oracle : DecayOracle) (sensor : String) (state : Bool) (t : ℚ) :
    NInv (process_event cfg oracle s sensor state t) := by
  unfold process_event
  rcases hs : cfg.sensors sensor with _ | info
  · exact h
  · exact foldl_preserve NInv _ (fun s2 a hs2 => ninv_areaStep hs2 cfg info state t a)
      _ _ (ninv_updateTimestamp h cfg oracle t)

theorem ninv_run (cfg : Config) (oracle : DecayOracle)
    (events : List (String × Bool × ℚ)) : NInv (run cfg oracle events) :=
  foldl_preserve NInv _
    (fun s e hs => ninv_process_event hs cfg oracle e.1 e.2.1 e.2.2)
    events init ninv_init

end Src

/-! ## C1 : occupancy stays nonnegative; integrality holds only for the
production tracker -/

/-- A two-room configuration for the C1 counterexample: areas `A`, `B`
adjacent to each other, a `camera_person` sensor and a motion sensor in `A`,
a motion sensor in `B`. -/
def cfgC1 : Config :=
  { areas := ["A", "B"]
  , exit_capable := fun _ => false
  , indoors := fun _ => true
  , adjacency := fun a => if a = "A" then ["B"] else if a = "B" then ["A"] else []
  , sensors := fun s =>
      if s = "cam" then some ⟨"camera_person", ["A"]⟩
      else if s = "mA" then some ⟨"motion", ["A"]⟩
      else if s = "mB" then some ⟨"motion", ["B"]⟩
      else none }

/-- Occupant appears in `A` (camera), motion in `A` at `t = 1`, then motion in
`B` at `t = 2` — within the 5-second window, so the older tracker splits the
occupant in half. -/
def eventsC1 : List (String × Bool × ℚ) :=
  [("cam", true, 0), ("mA", true, 1), ("mB", true, 2)]

/-- The decay oracle used on concrete runs; no run below ever reaches the
decayed branch, so its value is irrelevant. -/
def oracle0 : Src.DecayOracle := fun _ _ _ => 0

/-- **C1, counterexample.**  After the three events of `eventsC1`,
`src/occupancy_tracker.py` reports occupancy `1/2` for area `B` (and `A`):
`get_occupancy` is *not* integer-valued — the incomplete-transition split
`adj_state.occupancy / 2` produces fractions. -/
theorem claim_C1_counterexample :
    Src.get_occupancy cfgC1 (Src.run cfgC1 oracle0 eventsC1) "B" = 1/2 ∧
    ¬ ∃ n : ℕ, Src.get_occupancy cfgC1 (Src.run cfgC1 oracle0 eventsC1) "B" = n := by
  have hval : Src.get_occupancy cfgC1 (Src.run cfgC1 oracle0 eventsC1) "B" = 1/2 := by
    norm_num +decide [Src.run, Src.process_event, Src.updateTimestamp, Src.decayStep,
      Src.decay_probability, Src.areaStep, Src.motion_rising, Src.splitStep,
      Src.contact_rising, Src.motion_falling, Src.update_adjacent, Src.adjProbStep,
      Src.setArea, Src.init, Src.initArea, Src.get_occupancy, upd, cfgC1, eventsC1,
      oracle0]
  refine ⟨hval, ?_⟩
  rintro ⟨n, hn⟩
  rw [hval] at hn
  rcases n with _ | m
  · norm_num at hn
  · push_cast at hn
    linarith [Nat.cast_nonneg (α := ℚ) m]

/-- **C1, amended.**  For every configuration and every event sequence
processed from construction, occupancy is nonnegative in both trackers; in
the production tracker (`custom_components/occupancy_tracker`) it is moreover
always a natural number, while the older tracker can produce fractional
values (see the counterexample). -/
theorem claim_C1_amended :
    (∀ (cfg : Config) (events : List (String × Bool × ℚ)) (area : String),
       0 ≤ CC.get_occupancy (CC.run cfg events) area ∧
       ∃ n : ℕ, CC.get_occupancy (CC.run cfg events) area = n) ∧
    (∀ (cfg : Config) (oracle : Src.DecayOracle)
       (events : List (String × Bool × ℚ)) (area : String),
       0 ≤ Src.get_occupancy cfg (Src.run cfg oracle events) area) := by
  constructor
  · intro cfg events area
    obtain ⟨⟨n, hn⟩, -, -⟩ := CC.inv_run cfg events area
    refine ⟨?_, ⟨n, hn⟩⟩
    rw [CC.get_occupancy, hn]
    exact_mod_cast Nat.zero_le n
  · intro cfg oracle events area
    unfold Src.get_occupancy
    split
    · exact Src.ninv_run cfg oracle events area
    · exact le_refl 0

/-! ## C2 : magnetic events move or create occupants (transfer model) -/

/-- Two areas bridged by one magnetic sensor. -/
def cfgC2 : Config :=
  { areas := ["A", "B"]
  , exit_capable := fun _ => false
  , indoors := fun _ => true
  , adjacency := fun _ => []
  , sensors := fun s =>
      if s = "door" then some ⟨"magnetic", ["A", "B"]⟩ else none }

/-- **C2, counterexample.**  With every area empty, a single magnetic
rising-edge event *creates* an occupant: area `A` goes from occupancy `0` to
`1`, so the event does not leave every area's occupancy unchanged. -/
theorem claim_C2_counterexample :
    CC.init.occupant_count "A" = 0 ∧
    (CC.process_event cfgC2 CC.init "door" true 0).occupant_count "A" = 1 := by
  constructor
  · rfl
  · decide

namespace CC

/-- The third branch of `_handle_magnetic_trigger`: both sides empty, one
occupant is created on side `A`. -/
theorem magnetic_fresh (cfg : Config) (s : State) (areaA areaB : String) (t : ℚ)
    (h1 : ¬ 1 ≤ s.occupant_count areaA) (h2 : ¬ 1 ≤ s.occupant_count areaB)
    (h3 : s.occupant_count areaA = 0 ∧ s.occupant_count areaB = 0) :
    handle_magnetic_trigger cfg s [areaA, areaB] t =
      setProb (setCount s areaA 1) areaA (19/20) := by
  unfold handle_magnetic_trigger
  dsimp only
  rw [if_neg h1, if_neg h2, if_pos h3]

/-- The fall-through of `_handle_magnetic_trigger`: no branch applies, the
state is untouched (unreachable for integer counts). -/
theorem magnetic_skip (cfg : Config) (s : State) (areaA areaB : String) (t : ℚ)
    (h1 : ¬ 1 ≤ s.occupant_count areaA) (h2 : ¬ 1 ≤ s.occupant_count areaB)
    (h3 : ¬ (s.occupant_count areaA = 0 ∧ s.occupant_count areaB = 0)) :
    handle_magnetic_trigger cfg s [areaA, areaB] t = s := by
  unfold handle_magnetic_trigger
  dsimp only
  rw [if_neg h1, if_neg h2, if_neg h3]

end CC

/-- **C2, amended.**  In `custom_components/occupancy_tracker/occupancy_tracker.py`
a magnetic rising edge on a sensor bridging two areas `A ≠ B` implements the
*transfer* model: one occupant moves from the occupied side (side `A` first)
to the other, one occupant is created on side `A` when both sides are empty,
all other areas are untouched, and a falling edge is a no-op.  Occupancy is
preserved only in the no-op cases. -/
theorem claim_C2_amended (cfg : Config) (s : CC.State) (sensor : String)
    (A B : String) (t : ℚ) (hAB : A ≠ B)
    (hs : cfg.sensors sensor = some ⟨"magnetic", [A, B]⟩) :
    (1 ≤ s.occupant_count A →
      (CC.process_event cfg s sensor true t).occupant_count A =
        s.occupant_count A - 1 ∧
      (CC.process_event cfg s sensor true t).occupant_count B =
        s.occupant_count B + 1) ∧
    (¬ 1 ≤ s.occupant_count A → 1 ≤ s.occupant_count B →
      (CC.process_event cfg s sensor true t).occupant_count B =
        s.occupant_count B - 1 ∧
      (CC.process_event cfg s sensor true t).occupant_count A =
        s.occupant_count A + 1) ∧
    (s.occupant_count A = 0 → s.occupant_count B = 0 →
      (CC.process_event cfg s sensor true t).occupant_count A = 1 ∧
      (CC.process_event cfg s sensor true t).occupant_count B = 0) ∧
    (∀ x, x ≠ A → x ≠ B →
      (CC.process_event cfg s sensor true t).occupant_count x =
        s.occupant_count x) ∧
    CC.process_event cfg s sensor false t = s := by
  have hpe : CC.process_event cfg s sensor true t =
      CC.handle_magnetic_trigger cfg s [A, B] t := by
    unfold CC.process_event
    rw [hs]
    norm_num +decide [presenceTypes]
  have hBA : ¬ B = A := fun hh => hAB hh.symm
  refine ⟨?_, ?_, ?_, ?_, ?_⟩
  · intro h1
    obtain ⟨hcnt, -, -⟩ := CC.magnetic_first cfg s A B t h1
    rw [hpe, hcnt]
    constructor
    · simp [upd_apply, hAB, hBA]
    · simp [upd_apply]
  · intro h1 h2
    obtain ⟨hcnt, -, -⟩ := CC.magnetic_second cfg s A B t h1 h2
    rw [hpe, hcnt]
    constructor
    · simp [upd_apply, hAB, hBA]
    · simp [upd_apply]
  · intro h0A h0B
    have hn1 : ¬ 1 ≤ s.occupant_count A := by rw [h0A]; norm_num
    have hn2 : ¬ 1 ≤ s.occupant_count B := by rw [h0B]; norm_num
    rw [hpe, CC.magnetic_fresh cfg s A B t hn1 hn2 ⟨h0A, h0B⟩]
    constructor
    · simp [CC.setProb, CC.setCount, upd_apply]
    · simp [CC.setProb, CC.setCount, upd_apply, hBA, h0B]
  · intro x hxA hxB
    rw [hpe]
    by_cases h1 : 1 ≤ s.occupant_count A
    · obtain ⟨hcnt, -, -⟩ := CC.magnetic_first cfg s A B t h1
      rw [hcnt]; simp [upd_apply, hxA, hxB]
    · by_cases h2 : 1 ≤ s.occupant_count B
      · obtain ⟨hcnt, -, -⟩ := CC.magnetic_second cfg s A B t h1 h2
        rw [hcnt]; simp [upd_apply, hxA, hxB]
      · by_cases h3 : s.occupant_count A = 0 ∧ s.occupant_count B = 0
        · rw [CC.magnetic_fresh cfg s A B t h1 h2 h3]
          simp [CC.setProb, CC.setCount, upd_apply, hxA]
        · rw [CC.magnetic_skip cfg s A B t h1 h2 h3]
  · unfold CC.process_event
    rw [hs]
    norm_num +decide [presenceTypes]

/-- Witness for C2 at the concrete two-area configuration. -/
theorem claim_C2_amended_witness :
    (CC.process_event cfgC2 CC.init "door" true 0).occupant_count "A" = 1 ∧
    CC.process_event cfgC2 CC.init "door" false 0 = CC.init := by
  have h := claim_C2_amended cfgC2 CC.init "door" "A" "B" 0 (by decide) rfl
  exact ⟨(h.2.2.1 rfl rfl).1, h.2.2.2.2⟩

/-! ## C3 : presence falling edges and exit-capable areas -/

/-- One exit-capable area with a motion sensor. -/
def cfgC3 : Config :=
  { areas := ["A"]
  , exit_capable := fun a => a = "A"
  , indoors := fun _ => true
  , adjacency := fun _ => []
  , sensors := fun s => if s = "m" then some ⟨"motion", ["A"]⟩ else none }

/-- **C3, counterexample.**  A rising edge puts one occupant in the
exit-capable area `A`; the following falling edge *does* mutate occupancy,
resetting it to `0` (the occupant is deemed to have left the system). -/
theorem claim_C3_counterexample :
    (CC.process_event cfgC3 CC.init "m" true 0).occupant_count "A" = 1 ∧
    (CC.process_event cfgC3 (CC.process_event cfgC3 CC.init "m" true 0)
        "m" false 1).occupant_count "A" = 0 := by
  constructor
  · decide
  · norm_num +decide [CC.process_event, CC.handle_motion_start,
      CC.handle_motion_start_area, CC.try_move_in, CC.bestCandidate,
      CC.handle_motion_stop, CC.handle_motion_stop_area, CC.setCount, CC.setProb,
      CC.setLast, CC.short_threshold, CC.init, upd, cfgC3, presenceTypes]

namespace CC

/-- Per-area effect of `_handle_motion_stop` on the counts. -/
theorem motion_stop_area_count (cfg : Config) (s : State) (area x : String) :
    (handle_motion_stop_area cfg s area).occupant_count x =
      if x = area ∧ cfg.exit_capable area ∧ 1 ≤ s.occupant_count area then 0
      else s.occupant_count x := by
  have hmidc :
      (if 1/2 < s.occupant_prob area then setProb s area (3/4) else s).occupant_count
        = s.occupant_count := by
    split_ifs <;> rfl
  unfold handle_motion_stop_area
  by_cases h1 : 1 ≤ s.occupant_count area
  · rw [if_pos h1]
    by_cases hex : cfg.exit_capable area = true
    · rw [if_pos hex]
      have hL : (setProb (setCount
            (if 1/2 < s.occupant_prob area then setProb s area (3/4) else s)
            area 0) area (1/20)).occupant_count x =
          if x = area then 0 else s.occupant_count x := by
        simp only [setProb_count, setCount_count]
        by_cases hxa : x = area
        · simp [hxa]
        · simp only [hxa, if_false]
          exact congrFun hmidc x
      rw [hL]
      split_ifs <;> tauto
    · rw [if_neg hex, congrFun hmidc x]
      split_ifs <;> tauto
  · rw [if_neg h1]
    split_ifs <;> tauto

/-- Effect of the whole `_handle_motion_stop` loop on the counts. -/
theorem motion_stop_count (cfg : Config) (areas : List String) (s : State)
    (a : String) :
    (handle_motion_stop cfg s areas).occupant_count a =
      if a ∈ areas ∧ cfg.exit_capable a ∧ 1 ≤ s.occupant_count a then 0
      else s.occupant_count a := by
  induction areas generalizing s with
  | nil => simp [handle_motion_stop]
  | cons hd tl ih =>
      have hfold : handle_motion_stop cfg s (hd :: tl) =
          handle_motion_stop cfg (handle_motion_stop_area cfg s hd) tl := rfl
      rw [hfold, ih, motion_stop_area_count]
      by_cases hah : a = hd <;> by_cases hex : cfg.exit_capable a = true <;>
        by_cases hexhd : cfg.exit_capable hd = true <;>
        by_cases h1 : 1 ≤ s.occupant_count a <;>
        by_cases h1hd : 1 ≤ s.occupant_count hd <;>
        by_cases hmem : a ∈ tl <;>
        simp_all <;>
        (intro hcon
         rw [if_neg (not_le.mpr h1hd)] at hcon
         exact absurd hcon (not_le.mpr h1hd))

end CC

/-- **C3, amended.**  A presence-family falling edge leaves the occupancy of
every area unchanged **except** an area listed by the sensor that is
exit-capable and has occupancy ≥ 1: its occupancy is reset to `0` (the
occupant is inferred to have left the tracked system).  Departure is still
never inferred for non-exit-capable areas. -/
theorem claim_C3_amended (cfg : Config) (s : CC.State) (sensor : String)
    (info : SensorInfo) (t : ℚ) (hs : cfg.sensors sensor = some info)
    (hpres : info.type ∈ presenceTypes) (a : String) :
    (CC.process_event cfg s sensor false t).occupant_count a =
      if a ∈ info.areas ∧ cfg.exit_capable a ∧ 1 ≤ s.occupant_count a then 0
      else s.occupant_count a := by
  have hpe : CC.process_event cfg s sensor false t =
      CC.handle_motion_stop cfg s info.areas := by
    unfold CC.process_event
    rw [hs]
    simp [hpres]
  rw [hpe, CC.motion_stop_count]

/-- Witness for C3: falling edge in an occupied exit-capable area resets the
count; in a non-listed area nothing changes. -/
theorem claim_C3_amended_witness :
    (CC.process_event cfgC3 (CC.process_event cfgC3 CC.init "m" true 0)
        "m" false 1).occupant_count "A" =
      (if ("A" : String) ∈ ["A"] ∧ cfgC3.exit_capable "A" ∧
          1 ≤ (CC.process_event cfgC3 CC.init "m" true 0).occupant_count "A" then 0
        else (CC.process_event cfgC3 CC.init "m" true 0).occupant_count "A") :=
  claim_C3_amended cfgC3 (CC.process_event cfgC3 CC.init "m" true 0) "m"
    ⟨"motion", ["A"]⟩ 1 rfl (by decide) "A"

/-! ## C4 : the adjacency-transition window is 5 seconds, not 120 -/

/-- The tracker state the claim describes: area `A` holds one occupant whose
last motion was at `t = 0`, area `B` is empty. -/
def trC4 : CC.State :=
  { occupant_count := upd (fun _ => 0) "A" 1
  , occupant_prob := upd (fun _ => 1/20) "A" (19/20)
  , last_motion_time := upd (fun _ => none) "A" (some 0) }

/-- The matching detector state: previous counts in sync with `trC4`, no
sensor records, no anomalies. -/
def sysC4 : OccupancySystem :=
  { tracker := trC4
  , detector :=
    { sensor_states := fun _ => none
    , prev_occupant_count := upd (fun _ => 0) "A" 1
    , anomalies := [] } }

/-- **C4, counterexample.**  A presence rising edge in `B` at `t = 10` is
*outside* the tracker's 5-second `short_threshold` (there is no 120-second
window in this code), so no occupant is moved: `A` keeps occupancy `1`,
contradicting the claimed `A.occupancy == 0`. -/
theorem claim_C4_counterexample :
    (OccupancySystem.handle_event cfgC1 300 sysC4 "mB" true 10).tracker.occupant_count
        "A" = 1 ∧ (1 : ℚ) ≠ 0 := by
  constructor
  · norm_num +decide [OccupancySystem.handle_event, AnomalyDetector.process_event,
      AnomalyDetector.check_occupancy_changes, AnomalyDetector.check_area,
      CC.process_event, CC.handle_motion_start, CC.handle_motion_start_area,
      CC.try_move_in, CC.bestCandidate, CC.short_threshold, CC.setCount, CC.setProb,
      CC.setLast, CC.get_occupancy, upd, cfgC1, trC4, sysC4, presenceTypes]
  · norm_num

/-- **C4, amended.**  In the code's semantics the `t = 10` event is treated as
a brand-new occupant: `A` keeps occupancy `1`, `B` gets occupancy `1`, and no
anomaly is created (the occupied adjacent area `A` makes the appearance
plausible to `check_occupancy_changes`). -/
theorem claim_C4_amended :
    (OccupancySystem.handle_event cfgC1 300 sysC4 "mB" true 10).tracker.occupant_count
        "A" = 1 ∧
    (OccupancySystem.handle_event cfgC1 300 sysC4 "mB" true 10).tracker.occupant_count
        "B" = 1 ∧
    (OccupancySystem.handle_event cfgC1 300 sysC4 "mB" true 10).detector.anomalies
        = [] := by
  refine ⟨?_, ?_, ?_⟩ <;>
    norm_num +decide [OccupancySystem.handle_event, AnomalyDetector.process_event,
      AnomalyDetector.check_occupancy_changes, AnomalyDetector.check_area,
      CC.process_event, CC.handle_motion_start, CC.handle_motion_start_area,
      CC.try_move_in, CC.bestCandidate, CC.short_threshold, CC.setCount, CC.setProb,
      CC.setLast, CC.get_occupancy, upd, cfgC1, trC4, sysC4, presenceTypes]

/-! ## C5 : probability range holds, the tier-wise rule does not -/

/-- The tier rule exactly as the claim words it: `0.05` when empty, `0.95`
when occupied with motion inside a 120-second window of `now`, `0.75` when
occupied but stale. -/
def tierProbabilityClaim (s : CC.State) (area : String) (now : ℚ) : ℚ :=
  if s.occupant_count area = 0 then 1/20
  else if (match s.last_motion_time area with
           | some m => decide (now - m < 120)
           | none => false) then 19/20
  else 3/4

/-- **C5, counterexample.**  Rising edge in `A` at `t = 0` then falling edge
at `t = 1` (area not exit-capable): the area is occupied and its motion is 1
second old — well inside 120 seconds — yet `get_occupancy_probability`
returns `0.75`, not the tier rule's `0.95`.  The value is event-driven, not
derived from a recent-motion window. -/
theorem claim_C5_counterexample :
    CC.get_occupancy_probability
        (CC.run cfgC1 [("mA", true, 0), ("mA", false, 1)]) "A" = 3/4 ∧
    tierProbabilityClaim (CC.run cfgC1 [("mA", true, 0), ("mA", false, 1)]) "A" 1
        = 19/20 ∧
    CC.get_occupancy (CC.run cfgC1 [("mA", true, 0), ("mA", false, 1)]) "A" = 1 := by
  refine ⟨?_, ?_, ?_⟩ <;>
    norm_num +decide [CC.run, CC.process_event, CC.handle_motion_start,
      CC.handle_motion_start_area, CC.try_move_in, CC.bestCandidate,
      CC.handle_motion_stop, CC.handle_motion_stop_area, CC.short_threshold,
      CC.setCount, CC.setProb, CC.setLast, CC.init, CC.get_occupancy,
      CC.get_occupancy_probability, tierProbabilityClaim, upd, cfgC1, presenceTypes]

/-- **C5, amended.**  On every reachable state of the production tracker,
`get_occupancy_probability` does take values only in `{0.05, 0.75, 0.95}`, and
`0.05` holds exactly when the area is empty; but for occupied areas the choice
between `0.95` and `0.75` is event-driven (a falling edge in an occupied
non-exit area gives `0.75`), not determined by a 120-second recent-motion
window. -/
theorem claim_C5_amended (cfg : Config) (events : List (String × Bool × ℚ))
    (area : String) :
    (CC.get_occupancy_probability (CC.run cfg events) area = 1/20 ∨
     CC.get_occupancy_probability (CC.run cfg events) area = 3/4 ∨
     CC.get_occupancy_probability (CC.run cfg events) area = 19/20) ∧
    (CC.get_occupancy_probability (CC.run cfg events) area = 1/20 ↔
     CC.get_occupancy (CC.run cfg events) area = 0) := by
  obtain ⟨-, hiff, hrange⟩ := CC.inv_run cfg events area
  exact ⟨hrange, hiff.symm⟩

/-! ## C6 : unknown sensors and unknown areas -/

namespace CC

/-- The candidate chosen by `_try_move_in`'s scan comes from the adjacency
list (or from the accumulator). -/
theorem bestCandidate_mem (s : State) (t : ℚ) :
    ∀ (l : List String) (acc : Option (String × ℚ)) (b : String) (d : ℚ),
      bestCandidate s t l acc = some (b, d) →
      b ∈ l ∨ ∃ d0, acc = some (b, d0) := by
  intro l
  induction l with
  | nil =>
      intro acc b d h
      right
      exact ⟨d, h⟩
  | cons hd tl ih =>
      intro acc b d h
      unfold bestCandidate at h
      split_ifs at h with hocc
      · rcases acc with _ | ⟨b0, d0⟩
        · rcases ih _ _ _ h with hmem | ⟨d1, hacc⟩
          · exact Or.inl (List.mem_cons_of_mem _ hmem)
          · rcases Option.some.injEq _ _ ▸ hacc with h2
            obtain ⟨hb, -⟩ := Prod.mk.injEq .. ▸ (Option.some.inj hacc)
            exact Or.inl (hb ▸ List.mem_cons_self hd tl)
        · dsimp only at h
          split_ifs at h with hdt
          · rcases ih _ _ _ h with hmem | ⟨d1, hacc⟩
            · exact Or.inl (List.mem_cons_of_mem _ hmem)
            · obtain ⟨hb, -⟩ := Prod.mk.injEq .. ▸ (Option.some.inj hacc)
              exact Or.inl (hb ▸ List.mem_cons_self hd tl)
          · rcases ih _ _ _ h with hmem | ⟨d1, hacc⟩
            · exact Or.inl (List.mem_cons_of_mem _ hmem)
            · obtain ⟨hb, -⟩ := Prod.mk.injEq .. ▸ (Option.some.inj hacc)
              exact Or.inr ⟨d0, hb ▸ rfl⟩
      · rcases ih _ _ _ h with hmem | hacc
        · exact Or.inl (List.mem_cons_of_mem _ hmem)
        · exact Or.inr hacc

/-- Cells outside `{new_area} ∪ adjacency new_area` are untouched by
`_try_move_in`. -/
theorem try_move_in_untouched (cfg : Config) (s : State) (new_area : String)
    (t : ℚ) (x : String) (hx1 : x ≠ new_area) (hx2 : x ∉ cfg.adjacency new_area) :
    (try_move_in cfg s new_area t).occupant_count x = s.occupant_count x ∧
    (try_move_in cfg s new_area t).occupant_prob x = s.occupant_prob x := by
  unfold try_move_in
  rcases hb : bestCandidate s t (cfg.adjacency new_area) none with _ | ⟨b, d⟩
  · constructor <;> simp [setCount, setProb, upd_apply, hx1]
  · have hbmem : b ∈ cfg.adjacency new_area := by
      rcases bestCandidate_mem s t _ none b d hb with h | ⟨d0, h⟩
      · exact h
      · exact absurd h (by simp)
    have hxb : x ≠ b := fun he => hx2 (he ▸ hbmem)
    dsimp only
    by_cases hdt : short_threshold < d
    · rw [if_pos hdt]
      constructor <;> simp [setCount, setProb, upd_apply, hx1]
    · rw [if_neg hdt]
      constructor <;> simp [setCount, setProb, upd_apply, hx1, hxb]

theorem motion_start_area_untouched (cfg : Config) (s : State) (area : String)
    (t : ℚ) (x : String) (hx1 : x ≠ area) (hx2 : x ∉ cfg.adjacency area) :
    (handle_motion_start_area cfg s area t).occupant_count x = s.occupant_count x ∧
    (handle_motion_start_area cfg s area t).occupant_prob x = s.occupant_prob x := by
  unfold handle_motion_start_area
  dsimp only
  split_ifs
  · have h := try_move_in_untouched cfg (setLast s area (some t)) area t x hx1 hx2
    exact ⟨h.1, h.2⟩
  · constructor <;> simp [setLast, setProb, upd_apply, hx1]

theorem motion_stop_area_untouched (cfg : Config) (s : State) (area : String)
    (x : String) (hx1 : x ≠ area) :
    (handle_motion_stop_area cfg s area).occupant_count x = s.occupant_count x ∧
    (handle_motion_stop_area cfg s area).occupant_prob x = s.occupant_prob x := by
  unfold handle_motion_stop_area
  split_ifs <;> constructor <;> simp [setCount, setProb, upd_apply, hx1]

theorem magnetic_pair_untouched (cfg : Config) (s : State) (areaA areaB : String)
    (t : ℚ) (x : String) (hxA : x ≠ areaA) (hxB : x ≠ areaB) :
    (handle_magnetic_trigger cfg s [areaA, areaB] t).occupant_count x =
      s.occupant_count x ∧
    (handle_magnetic_trigger cfg s [areaA, areaB] t).occupant_prob x =
      s.occupant_prob x := by
  by_cases h1 : 1 ≤ s.occupant_count areaA
  · obtain ⟨hc, hp, -⟩ := magnetic_first cfg s areaA areaB t h1
    rw [hc, hp]
    constructor <;> simp [upd_apply, hxA, hxB]
  · by_cases h2 : 1 ≤ s.occupant_count areaB
    · obtain ⟨hc, hp, -⟩ := magnetic_second cfg s areaA areaB t h1 h2
      rw [hc, hp]
      constructor <;> simp [upd_apply, hxA, hxB]
    · by_cases h3 : s.occupant_count areaA = 0 ∧ s.occupant_count areaB = 0
      · rw [magnetic_fresh cfg s areaA areaB t h1 h2 h3]
        constructor <;> simp [setCount, setProb, upd_apply, hxA]
      · rw [magnetic_skip cfg s areaA areaB t h1 h2 h3]
        exact ⟨rfl, rfl⟩

/-- Configuration well-formedness guaranteed by the excluded validator:
sensors and adjacency lists only name configured areas. -/
def WFConfig (cfg : Config) : Prop :=
  (∀ sensor info, cfg.sensors sensor = some info → ∀ a ∈ info.areas, a ∈ cfg.areas) ∧
  (∀ x, ∀ a ∈ cfg.adjacency x, a ∈ cfg.areas)

/-- Cells of areas outside the configuration keep their construction-time
defaults. -/
def OffInv (cfg : Config) (s : State) : Prop :=
  ∀ a, a ∉ cfg.areas → s.occupant_count a = 0 ∧ s.occupant_prob a = 1/20

theorem offInv_init (cfg : Config) : OffInv cfg init :=
  fun _ _ => ⟨rfl, rfl⟩

theorem offInv_process_event {cfg : Config} (hwf : WFConfig cfg) {s : State}
    (h : OffInv cfg s) (sensor : String) (state : Bool) (t : ℚ) :
    OffInv cfg (process_event cfg s sensor state t) := by
  intro a ha
  rcases hs : cfg.sensors sensor with _ | info
  · unfold process_event
    rw [hs]
    exact h a ha
  · have hareas : ∀ ar ∈ info.areas, a ≠ ar ∧ a ∉ cfg.adjacency ar := by
      intro ar har
      constructor
      · intro he
        exact ha (he ▸ hwf.1 sensor info hs ar har)
      · intro hadj
        exact ha (hwf.2 ar a hadj)
    unfold process_event
    rw [hs]
    dsimp only
    split_ifs with hpres hstate hmag hstate2
    · -- presence rising: fold of motion-start steps
      have : ∀ (areas : List String) (s2 : State),
          (∀ ar ∈ areas, a ≠ ar ∧ a ∉ cfg.adjacency ar) →
          (s2.occupant_count a = 0 ∧ s2.occupant_prob a = 1/20) →
          ((handle_motion_start cfg s2 areas t).occupant_count a = 0 ∧
           (handle_motion_start cfg s2 areas t).occupant_prob a = 1/20) := by
        intro areas
        induction areas with
        | nil => intro s2 _ h2; exact h2
        | cons hd tl ih =>
            intro s2 hall h2
            have hstep := motion_start_area_untouched cfg s2 hd t a
              (hall hd (List.mem_cons_self hd tl)).1
              (hall hd (List.mem_cons_self hd tl)).2
            exact ih _ (fun ar har => hall ar (List.mem_cons_of_mem hd har))
              ⟨hstep.1.trans h2.1, hstep.2.trans h2.2⟩
      exact this info.areas s hareas (h a ha)
    · -- presence falling
      have : ∀ (areas : List String) (s2 : State),
          (∀ ar ∈ areas, a ≠ ar) →
          (s2.occupant_count a = 0 ∧ s2.occupant_prob a = 1/20) →
          ((handle_motion_stop cfg s2 areas).occupant_count a = 0 ∧
           (handle_motion_stop cfg s2 areas).occupant_prob a = 1/20) := by
        intro areas
        induction areas with
        | nil => intro s2 _ h2; exact h2
        | cons hd tl ih =>
            intro s2 hall h2
            have hstep := motion_stop_area_untouched cfg s2 hd a
              (hall hd (List.mem_cons_self hd tl))
            exact ih _ (fun ar har => hall ar (List.mem_cons_of_mem hd har))
              ⟨hstep.1.trans h2.1, hstep.2.trans h2.2⟩
      exact this info.areas s (fun ar har => (hareas ar har).1) (h a ha)
    · -- magnetic rising
      match harr : info.areas with
      | [] => exact h a ha
      | [a1] =>
          have hmem1 : a1 ∈ info.areas := by rw [harr]; exact List.mem_cons_self a1 []
          have hone : handle_magnetic_trigger cfg s [a1] t =
              handle_motion_start_area cfg s a1 t := rfl
          rw [hone]
          have hstep2 := motion_start_area_untouched cfg s a1 t a
            (hareas a1 hmem1).1 (hareas a1 hmem1).2
          exact ⟨hstep2.1.trans (h a ha).1, hstep2.2.trans (h a ha).2⟩
      | [a1, a2] =>
          have hmem1 : a1 ∈ info.areas := by
            rw [harr]; exact List.mem_cons_self a1 [a2]
          have hmem2 : a2 ∈ info.areas := by
            rw [harr]; exact List.mem_cons_of_mem a1 (List.mem_cons_self a2 [])
          have hstep := magnetic_pair_untouched cfg s a1 a2 t a
            (hareas a1 hmem1).1 (hareas a2 hmem2).1
          exact ⟨hstep.1.trans (h a ha).1, hstep.2.trans (h a ha).2⟩
      | a1 :: a2 :: a3 :: rest => exact h a ha
    · exact h a ha
    · exact h a ha

theorem offInv_run {cfg : Config} (hwf : WFConfig cfg)
    (events : List (String × Bool × ℚ)) : OffInv cfg (run cfg events) :=
  foldl_preserve (OffInv cfg) _
    (fun s e hs => offInv_process_event hwf hs e.1 e.2.1 e.2.2)
    events init (offInv_init cfg)

end CC

/-- **C6, counterexample.**  `src/occupancy_tracker.py` answers `0.0`, not
`0.05`, when `get_occupancy_probability` is asked about an unknown area. -/
theorem claim_C6_counterexample :
    Src.get_occupancy_probability cfgC1 Src.init "nowhere" = 0 ∧ (0 : ℚ) ≠ 1/20 := by
  constructor
  · norm_num +decide [Src.get_occupancy_probability, cfgC1]
  · norm_num

/-- `cfgC1` satisfies the validator's guarantees. -/
theorem cfgC1_wf : CC.WFConfig cfgC1 := by
  constructor
  · intro sensor info hs a hmem
    simp only [cfgC1] at hs ⊢
    split_ifs at hs <;> first
      | (cases hs; simp_all)
      | exact absurd hs (by simp)
  · intro x a hadj
    simp only [cfgC1] at hadj ⊢
    split_ifs at hadj <;> simp_all

/-- **C6, amended.**  Processing an unknown sensor is a strict no-op in both
trackers.  For any reachable state of the production tracker over a
well-formed configuration, an unknown area reads occupancy `0` and
probability `0.05`; the older tracker answers occupancy `0` but probability
`0.0` (not `0.05`) for unknown areas.  None of these calls can fail: every
embedded operation is total. -/
theorem claim_C6_amended :
    (∀ (cfg : Config) (s : CC.State) (u : String) (st : Bool) (t : ℚ),
       cfg.sensors u = none → CC.process_event cfg s u st t = s) ∧
    (∀ cfg : Config, CC.WFConfig cfg →
       ∀ (events : List (String × Bool × ℚ)) (a : String), a ∉ cfg.areas →
         CC.get_occupancy (CC.run cfg events) a = 0 ∧
         CC.get_occupancy_probability (CC.run cfg events) a = 1/20) ∧
    (∀ (cfg : Config) (oracle : Src.DecayOracle) (s : Src.State) (u : String)
       (st : Bool) (t : ℚ), cfg.sensors u = none →
       Src.process_event cfg oracle s u st t = s) ∧
    (∀ (cfg : Config) (s : Src.State) (a : String), a ∉ cfg.areas →
       Src.get_occupancy cfg s a = 0 ∧ Src.get_occupancy_probability cfg s a = 0) := by
  refine ⟨?_, ?_, ?_, ?_⟩
  · intro cfg s u st t h
    unfold CC.process_event
    rw [h]
  · intro cfg hwf events a ha
    exact CC.offInv_run hwf events a ha
  · intro cfg oracle s u st t h
    unfold Src.process_event
    rw [h]
  · intro cfg s a ha
    unfold Src.get_occupancy Src.get_occupancy_probability
    rw [if_neg ha, if_neg ha]
    exact ⟨rfl, rfl⟩

/-- Witness for C6 at the concrete configuration `cfgC1`. -/
theorem claim_C6_amended_witness :
    CC.get_occupancy (CC.run cfgC1 eventsC1) "nowhere" = 0 ∧
    CC.process_event cfgC1 CC.init "zz" true 0 = CC.init := by
  have h := claim_C6_amended
  exact ⟨(h.2.1 cfgC1 cfgC1_wf eventsC1 "nowhere" (by decide)).1,
         h.1 cfgC1 CC.init "zz" true 0 rfl⟩

/-! ## C10 : `long_detection` anomalies only at qualifying off-transitions -/

/-- **C10.**  One `AnomalyDetector.process_event` call either leaves the
anomaly list unchanged, or — exactly when the event is a falling edge on a
known sensor whose recorded state is on and whose on-duration strictly
exceeds the threshold — appends the single corresponding `long_detection`
record.  Consequently a run consisting only of rising edges (a sensor that
turns on and never off) produces no anomalies at all, however long it runs. -/
theorem claim_C10 :
    (∀ (cfg : Config) (threshold : ℚ) (d : AnomalyDetector) (sensor : String)
       (state : Bool) (t : ℚ),
       (AnomalyDetector.process_event cfg threshold d sensor state t).anomalies
           = d.anomalies ∨
       (state = false ∧ (cfg.sensors sensor).isSome = true ∧
        ((d.sensor_states sensor).getD ⟨false, none⟩).state = true ∧
        threshold < t - ((d.sensor_states sensor).getD ⟨false, none⟩).since.getD 0 ∧
        (AnomalyDetector.process_event cfg threshold d sensor state t).anomalies =
          d.anomalies ++ [⟨"long_detection", some sensor, none, t,
            some (t - ((d.sensor_states sensor).getD ⟨false, none⟩).since.getD 0),
            none, none⟩])) ∧
    (∀ (cfg : Config) (threshold : ℚ) (events : List (String × Bool × ℚ)),
       (∀ e ∈ events, e.2.1 = true) →
       (events.foldl
           (fun d e => AnomalyDetector.process_event cfg threshold d e.1 e.2.1 e.2.2)
           (AnomalyDetector.init CC.init)).anomalies = []) := by
  constructor
  · intro cfg threshold d sensor state t
    unfold AnomalyDetector.process_event
    rcases hs : cfg.sensors sensor with _ | info
    · exact Or.inl rfl
    · dsimp only
      by_cases h1 : state = true ∧ ¬ ((d.sensor_states sensor).getD ⟨false, none⟩).state = true
      · rw [if_pos h1]
        exact Or.inl rfl
      · rw [if_neg h1]
        by_cases h2 : ¬ state = true ∧ ((d.sensor_states sensor).getD ⟨false, none⟩).state = true
        · rw [if_pos h2]
          by_cases h3 : threshold <
              t - ((d.sensor_states sensor).getD ⟨false, none⟩).since.getD 0
          · rw [if_pos h3]
            exact Or.inr ⟨Bool.not_eq_true state ▸ h2.1, by simp [hs], h2.2, h3, rfl⟩
          · rw [if_neg h3]
            exact Or.inl rfl
        · rw [if_neg h2]
          exact Or.inl rfl
  · intro cfg threshold events hall
    have hstep : ∀ (d : AnomalyDetector) (sensor : String) (t : ℚ),
        (AnomalyDetector.process_event cfg threshold d sensor true t).anomalies =
          d.anomalies := by
      intro d sensor t
      unfold AnomalyDetector.process_event
      rcases cfg.sensors sensor with _ | info
      · rfl
      · dsimp only
        split_ifs with h1 h2 <;> first | rfl | simp_all
    have hgen : ∀ (evs : List (String × Bool × ℚ)), (∀ e ∈ evs, e.2.1 = true) →
        ∀ d : AnomalyDetector,
        (evs.foldl
            (fun d e => AnomalyDetector.process_event cfg threshold d e.1 e.2.1 e.2.2)
            d).anomalies = d.anomalies := by
      intro evs
      induction evs with
      | nil => intro _ d; rfl
      | cons e tl ih =>
          intro hall2 d
          have he : e.2.1 = true := hall2 e (List.mem_cons_self e tl)
          rw [List.foldl_cons]
          rw [ih (fun e2 he2 => hall2 e2 (List.mem_cons_of_mem e he2))]
          rw [he]
          exact hstep d e.1 e.2.2
    exact hgen events hall (AnomalyDetector.init CC.init)

/-- Witness for C10: one rising edge yields no anomaly. -/
theorem claim_C10_witness :
    (([("mA", true, (0:ℚ))] : List (String × Bool × ℚ)).foldl
        (fun d e => AnomalyDetector.process_event cfgC1 300 d e.1 e.2.1 e.2.2)
        (AnomalyDetector.init CC.init)).anomalies = [] :=
  claim_C10.2 cfgC1 300 [("mA", true, 0)] (by decide)
